import Mathlib

/-!
Verification of the SVG-to-PNG converter (`src/predict.py`).

We give a shallow embedding of `Predictor.predict` and its helpers
(`_parse_svg_dimensions`, `_format_file_size`) as executable Lean
functions.  External collaborators — the Cairo rasterizer
(`cairosvg.svg2png`), the PIL image codec (`Image.open` / `img.save`)
and the temporary-path allocator (`tempfile.mktemp`) — are modelled as
components of an environment record; fallible calls return `Except`.
Machine floats used by the program only ever hold integers divided by
powers of 1024, which are exact in binary floating point for realistic
sizes, so they are modelled by `ℚ`.
-/

namespace SvgToPng

/-- Bytes of a file, one `Nat` per byte. -/
abbrev Bytes := List Nat

/-- Python `str.lower()` restricted to ASCII case folding, which is all
the program relies on (the only use compares against the ASCII literal
"transparent"). -/
def pyLower (s : String) : String :=
  String.mk (s.data.map Char.toLower)

/-- Python truthiness of an optional string: `None` and `""` are falsy. -/
def pyTruthyStr : Option String → Bool
  | none => false
  | some s => s ≠ ""

/-- The caller-supplied parameters of `Predictor.predict`
(`src/predict.py` lines 87–119).  `width`, `height`, `scale` default to
`None`; `dpi` defaults to 96; `background_color` defaults to
"transparent". -/
structure PredictInputs where
  width : Option Nat
  height : Option Nat
  scale : Option ℚ
  dpi : Nat
  background_color : String
deriving DecidableEq, Repr

/-- The default values of the optional inputs, read off the `Input(...)`
declarations in `src/predict.py` lines 92–119. -/
def defaultInputs : PredictInputs :=
  { width := none
    height := none
    scale := none
    dpi := 96
    background_color := "transparent" }

/-- The keyword-argument set handed to `cairosvg.svg2png`
(`convert_params` in `src/predict.py`).  A field of value `some v`
models the key being present in the dict with value `v`; `none` models
the key being absent.  `dpi` is always present. -/
structure ConvertParams where
  dpi : Nat
  background_color : Option String
  scale : Option ℚ
  output_width : Option Nat
  output_height : Option Nat
deriving DecidableEq, Repr

/-- Line 157 of `src/predict.py`:
`background = None if background_color.lower() == "transparent" else background_color`. -/
def parseBackground (background_color : String) : Option String :=
  if pyLower background_color = "transparent" then none else some background_color

/-- Construction of `convert_params` (`src/predict.py` lines 157–181):
start from `{'dpi': dpi}`; add `background_color` when the parsed
background is truthy (`if background:`); if `scale` is not `None` add
`scale`; otherwise add `output_width` / `output_height` for whichever of
`width` / `height` is not `None`. -/
def buildConvertParams (i : PredictInputs) : ConvertParams :=
  let background := parseBackground i.background_color
  { dpi := i.dpi
    background_color := if pyTruthyStr background then background else none
    scale := i.scale
    output_width := if i.scale.isSome then none else i.width
    output_height := if i.scale.isSome then none else i.height }

/-- A decoded raster image as PIL sees it: pixel dimensions and the
per-pixel data (RGBA values, flattened).  Only equality of this record
matters to the claims, so the representation is kept minimal. -/
structure Img where
  width : Nat
  height : Nat
  pixels : List (Nat × Nat × Nat × Nat)
deriving DecidableEq, Repr

/-- The external collaborators of `predict`: the Cairo rasterizer, the
PIL codec, and the temporary-path allocator.  `svg2png` may fail
(`Except.error` models a raised exception carrying its message);
`decode` and `encode` model `Image.open` on a valid PNG and
`img.save(..., "PNG", optimize=True)`. -/
structure Env where
  svg2png : Bytes → ConvertParams → Except String Bytes
  decode : Bytes → Img
  encode : Img → Bytes
  tmpPath : String

/-- The observable outcome of one call to `Predictor.predict`
(`src/predict.py` lines 120–262): the returned path or propagated
exception, the files written, the temporary paths allocated by
`tempfile.mktemp`, how many times the rasterizer was invoked, the
error-styled log lines emitted, and the size-change percentage printed
by lines 252–254 (`none` when the line is omitted). -/
structure PredictResult where
  output : Except String String
  filesWritten : List (String × Bytes)
  tmpPathsAllocated : List String
  rasterCalls : Nat
  errorLogs : List String
  sizeChangeReport : Option ℚ
deriving Repr

/-- Shallow embedding of the body of `Predictor.predict`
(`src/predict.py` lines 120–262), with the purely decorative progress
bar, sleeps and info-styled log lines elided.  The SVG bytes have
already been read from the input file (lines 143–144).

* line 163–181: build `convert_params` (see `buildConvertParams`);
* lines 189–198: call `cairosvg.svg2png` once inside `try`; on an
  exception, log one error-styled line and re-raise (`raise` bare), so
  no temporary path is allocated and no file is written;
* lines 204–216: decode the PNG bytes with PIL, allocate a fresh
  temporary path, save the re-encoded PNG there, and measure its size;
* lines 252–254: compute
  `(1 - output_size / svg_size) * 100 if output_size < svg_size else 0`
  and print the size-change line only when that value is positive;
* line 262: return the output path. -/
def predict (env : Env) (svg_data : Bytes) (i : PredictInputs) : PredictResult :=
  let convert_params := buildConvertParams i
  match env.svg2png svg_data convert_params with
  | .error e =>
      { output := .error e
        filesWritten := []
        tmpPathsAllocated := []
        rasterCalls := 1
        errorLogs := ["Rendering failed: " ++ e]
        sizeChangeReport := none }
  | .ok png_data =>
      let img := env.decode png_data
      let output_path := env.tmpPath
      let outBytes := env.encode img
      let svg_size := svg_data.length
      let output_size := outBytes.length
      let compression_ratio : ℚ :=
        if output_size < svg_size then (1 - (output_size : ℚ) / (svg_size : ℚ)) * 100 else 0
      { output := .ok output_path
        filesWritten := [(output_path, outBytes)]
        tmpPathsAllocated := [output_path]
        rasterCalls := 1
        errorLogs := []
        sizeChangeReport := if compression_ratio > 0 then some compression_ratio else none }

/-- An XML element as `xml.etree.ElementTree` returns it: we only need
its attribute list.  `get` looks an attribute up. -/
structure XmlElem where
  attrs : List (String × String)
deriving DecidableEq, Repr

/-- `root.get(name, default)`: the attribute's value, or the default
when the attribute is absent. -/
def XmlElem.get (e : XmlElem) (name default : String) : String :=
  match e.attrs.find? (fun p => p.1 = name) with
  | some p => p.2
  | none => default

/-- Shallow embedding of `Predictor._parse_svg_dimensions`
(`src/predict.py` lines 43–52), parameterized by the external XML
front-end `ET.fromstring` (an `Except.error` models any exception it
raises; the bare `except:` catches them all). -/
def parse_svg_dimensions (fromstring : Bytes → Except String XmlElem)
    (svg_data : Bytes) : String × String × String :=
  match fromstring svg_data with
  | .ok root => (root.get "width" "unknown", root.get "height" "unknown",
      root.get "viewBox" "unknown")
  | .error _ => ("unknown", "unknown", "unknown")

/-- Round a rational to the nearest integer, ties to even — the rounding
mode of Python's `format(x, '.2f')` on an exactly represented float,
applied here to `x * 100`. -/
def roundHalfEven (q : ℚ) : ℤ :=
  let f := ⌊q⌋
  let r := q - f
  if r < 1 / 2 then f
  else if 1 / 2 < r then f + 1
  else if f % 2 = 0 then f else f + 1

/-- Python's `f"{x:.2f}"` for the nonnegative exact values arising in
`_format_file_size`: the value rounded to two decimal places, rendered
with exactly two digits after the point. -/
def fmt2 (q : ℚ) : String :=
  let n := (roundHalfEven (q * 100)).toNat
  let frac := n % 100
  toString (n / 100) ++ "." ++ (if frac < 10 then "0" else "") ++ toString frac

/-- Shallow embedding of `Predictor._format_file_size`
(`src/predict.py` lines 54–60), its loop over `['B','KB','MB','GB']`
unrolled: at each unit, if the running value is below 1024 return it
formatted with that unit, else divide by 1024; after the loop the
remaining value is rendered as TB.  The Python float arithmetic
(repeated division of an integer by 1024.0) is exact for sizes below
2^53 and is modelled by `ℚ`. -/
def format_file_size (size_bytes : Nat) : String :=
  let s0 : ℚ := size_bytes
  if s0 < 1024 then fmt2 s0 ++ " B"
  else
    let s1 := s0 / 1024
    if s1 < 1024 then fmt2 s1 ++ " KB"
    else
      let s2 := s1 / 1024
      if s2 < 1024 then fmt2 s2 ++ " MB"
      else
        let s3 := s2 / 1024
        if s3 < 1024 then fmt2 s3 ++ " GB"
        else fmt2 (s3 / 1024) ++ " TB"

/-- Per-field validity of the caller-supplied inputs, read off the
`Input(ge=..., le=...)` declarations in `src/predict.py` lines 92–115:
width/height in [1,10000] when present, scale in [0.1,10.0] when
present, dpi in [72,600]. -/
def validateInputs (i : PredictInputs) : Bool :=
  (match i.width with | none => true | some w => 1 ≤ w && w ≤ 10000) &&
  (match i.height with | none => true | some h => 1 ≤ h && h ≤ 10000) &&
  (match i.scale with | none => true | some s => decide (1 / 10 ≤ s) && decide (s ≤ 10)) &&
  (72 ≤ i.dpi && i.dpi ≤ 600)

/-- Modelled from the spec: the cog serving harness that wraps
`Predictor.predict` is not part of `src/`; per the spec it enforces the
`ge`/`le` ranges declared on each `Input` before the core is invoked,
and out-of-range values fail before reaching it.  `none` models the
harness rejecting the call without running the body. -/
def harnessRun (env : Env) (svg_data : Bytes) (i : PredictInputs) :
    Option PredictResult :=
  if validateInputs i then some (predict env svg_data i) else none

/-- Written from the claim text of the one-line contract for
`_format_file_size` (for comparison with the code): the unit is the
LARGEST of B, KB, MB, GB whose index `idx` satisfies
`count / 1024 ^ idx < 1024` (checked from GB down), the value is
`count / 1024 ^ idx` to two decimals; otherwise TB with
`count / 1024 ^ 4`. -/
def claimLargestUnitFormat (size : Nat) : String :=
  let q : ℚ := size
  if q / 1024 ^ 3 < 1024 then fmt2 (q / 1024 ^ 3) ++ " GB"
  else if q / 1024 ^ 2 < 1024 then fmt2 (q / 1024 ^ 2) ++ " MB"
  else if q / 1024 ^ 1 < 1024 then fmt2 (q / 1024 ^ 1) ++ " KB"
  else if q / 1024 ^ 0 < 1024 then fmt2 (q / 1024 ^ 0) ++ " B"
  else fmt2 (q / 1024 ^ 4) ++ " TB"

/-- The amended contract for `_format_file_size`: the unit is the
SMALLEST of B, KB, MB, GB whose index `idx` satisfies
`count / 1024 ^ idx < 1024`, the value is `count / 1024 ^ idx` to two
decimals; for counts with no such index (at least `1024 ^ 4`) the unit
is TB with value `count / 1024 ^ 4`. -/
def claimSmallestUnitFormat (size : Nat) : String :=
  let q : ℚ := size
  if q / 1024 ^ 0 < 1024 then fmt2 (q / 1024 ^ 0) ++ " B"
  else if q / 1024 ^ 1 < 1024 then fmt2 (q / 1024 ^ 1) ++ " KB"
  else if q / 1024 ^ 2 < 1024 then fmt2 (q / 1024 ^ 2) ++ " MB"
  else if q / 1024 ^ 3 < 1024 then fmt2 (q / 1024 ^ 3) ++ " GB"
  else fmt2 (q / 1024 ^ 4) ++ " TB"

/-! ## Theorems -/

/-- C1.  Sizing-parameter precedence: when `scale` is set the rasterizer
parameter set includes `scale` and omits `output_width`/`output_height`
even if `width`/`height` are also set; when `scale` is absent the set
includes exactly whichever of `width`/`height` is present (each
independently), and when neither is present no sizing parameter is
included (natural size). -/
theorem sizing_precedence (i : PredictInputs) :
    (∀ s, i.scale = some s →
      (buildConvertParams i).scale = some s ∧
      (buildConvertParams i).output_width = none ∧
      (buildConvertParams i).output_height = none) ∧
    (i.scale = none →
      (buildConvertParams i).scale = none ∧
      (buildConvertParams i).output_width = i.width ∧
      (buildConvertParams i).output_height = i.height) := by
  refine ⟨fun s hs => ?_, fun hn => ?_⟩ <;>
    simp [buildConvertParams, *]

/-- C1 witness: at `scale = 2` with `width = 300` also set, the
parameter set carries `scale` and no width/height; and with `scale`
absent and only `width = 300` set, exactly `output_width` is carried. -/
theorem sizing_precedence_witness :
    ((buildConvertParams ⟨some 300, none, some 2, 96, "transparent"⟩).scale = some 2 ∧
      (buildConvertParams ⟨some 300, none, some 2, 96, "transparent"⟩).output_width = none ∧
      (buildConvertParams ⟨some 300, none, some 2, 96, "transparent"⟩).output_height = none) ∧
    ((buildConvertParams ⟨some 300, none, none, 96, "transparent"⟩).scale = none ∧
      (buildConvertParams ⟨some 300, none, none, 96, "transparent"⟩).output_width = some 300 ∧
      (buildConvertParams ⟨some 300, none, none, 96, "transparent"⟩).output_height = none) :=
  ⟨(sizing_precedence _).1 2 rfl, (sizing_precedence _).2 rfl⟩

/-- C2 counterexample: the empty background string is not the
"transparent" sentinel (even after case folding), yet it is NOT passed
through to the rasterizer — `if background:` in `src/predict.py` line
164 treats the empty string as falsy, so no `background_color` entry is
produced. -/
theorem background_empty_counterexample :
    pyLower "" ≠ "transparent" ∧
    (buildConvertParams ⟨none, none, none, 96, ""⟩).background_color = none := by
  constructor
  · decide
  · rfl

/-- C2 amended.  Background-color handling: a `background_color` that
case-insensitively equals "transparent" OR is the empty string yields no
background-color entry; every other string is passed through verbatim. -/
theorem background_color_handling (i : PredictInputs) :
    ((pyLower i.background_color = "transparent" ∨ i.background_color = "") →
      (buildConvertParams i).background_color = none) ∧
    (pyLower i.background_color ≠ "transparent" → i.background_color ≠ "" →
      (buildConvertParams i).background_color = some i.background_color) := by
  unfold buildConvertParams parseBackground
  constructor
  · rintro (h | h)
    · rw [if_pos h]
      rfl
    · rw [h]
      show (if pyTruthyStr (parseBackground "") = true then parseBackground "" else none)
        = none
      decide
  · intro h1 h2
    rw [if_neg h1]
    simp [pyTruthyStr, h2]

/-- C2 witness: "TRANSPARENT" yields no background entry, while
"#FF0000" is passed through verbatim. -/
theorem background_color_handling_witness :
    (buildConvertParams ⟨none, none, none, 96, "TRANSPARENT"⟩).background_color = none ∧
    (buildConvertParams ⟨none, none, none, 96, "#FF0000"⟩).background_color =
      some "#FF0000" :=
  ⟨(background_color_handling _).1 (Or.inl (by decide)),
    (background_color_handling _).2 (by decide) (by decide)⟩

/-- C4.  DPI is always passed: the parameter set handed to the
rasterizer always carries the caller's `dpi` value, whatever the other
parameters are, and the declared default for `dpi` is 96. -/
theorem dpi_always_passed (i : PredictInputs) :
    (buildConvertParams i).dpi = i.dpi ∧ defaultInputs.dpi = 96 :=
  ⟨rfl, rfl⟩

/-- C3.  Error handling on rasterization failure: when the rasterizer
raises, the call re-raises that same exception with its message
unchanged, after emitting exactly one error-styled log line; the
rasterizer was invoked exactly once (no retry), no file was written, and
the temporary output path was never allocated. -/
theorem render_failure_propagates (env : Env) (svg_data : Bytes)
    (i : PredictInputs) (e : String)
    (h : env.svg2png svg_data (buildConvertParams i) = .error e) :
    predict env svg_data i =
      { output := .error e
        filesWritten := []
        tmpPathsAllocated := []
        rasterCalls := 1
        errorLogs := ["Rendering failed: " ++ e]
        sizeChangeReport := none } := by
  simp only [predict, h]

/-- C3 witness: with a rasterizer that always raises "boom", the call
propagates the error, logs once, touches no file and allocates no
temporary path. -/
theorem render_failure_propagates_witness :
    predict ⟨fun _ _ => .error "boom", fun _ => ⟨0, 0, []⟩, fun _ => [], "/tmp/o.png"⟩
        [1, 2, 3] ⟨none, none, none, 96, "transparent"⟩ =
      { output := .error "boom"
        filesWritten := []
        tmpPathsAllocated := []
        rasterCalls := 1
        errorLogs := ["Rendering failed: boom"]
        sizeChangeReport := none } :=
  render_failure_propagates _ _ _ _ rfl

/-- C5.  Determinism: two runs whose rasterizer, decoder and encoder
behave identically, on byte-identical SVG input and identical
parameters, write byte-identical PNG contents — even when the allocated
temporary paths differ between the runs. -/
theorem conversion_deterministic (env₁ env₂ : Env) (svg_data : Bytes)
    (i : PredictInputs)
    (h1 : env₁.svg2png = env₂.svg2png) (h2 : env₁.decode = env₂.decode)
    (h3 : env₁.encode = env₂.encode) :
    (predict env₁ svg_data i).filesWritten.map Prod.snd =
      (predict env₂ svg_data i).filesWritten.map Prod.snd := by
  simp only [predict, h1, h2, h3]
  cases env₂.svg2png svg_data (buildConvertParams i) <;> simp

/-- C5 witness: two runs differing only in the temporary path they
allocate write the same PNG bytes. -/
theorem conversion_deterministic_witness :
    (predict ⟨fun _ _ => .ok [9, 9], fun _ => ⟨1, 1, [(7, 7, 7, 7)]⟩, fun _ => [4, 2], "/tmp/a.png"⟩
        [5] ⟨none, none, none, 96, "transparent"⟩).filesWritten.map Prod.snd =
    (predict ⟨fun _ _ => .ok [9, 9], fun _ => ⟨1, 1, [(7, 7, 7, 7)]⟩, fun _ => [4, 2], "/tmp/b.png"⟩
        [5] ⟨none, none, none, 96, "transparent"⟩).filesWritten.map Prod.snd :=
  conversion_deterministic _ _ _ _ rfl rfl rfl

/-- C9.  `_parse_svg_dimensions` is total: whatever the XML front-end
does on the given bytes, the function returns a triple of strings; when
the front-end raises it returns three "unknown"s, and when it succeeds
it returns the root element's `width`, `height` and `viewBox`
attributes, each defaulting to "unknown" when absent. -/
theorem parse_svg_dimensions_total (fromstring : Bytes → Except String XmlElem)
    (svg_data : Bytes) :
    (∃ e, fromstring svg_data = .error e ∧
      parse_svg_dimensions fromstring svg_data = ("unknown", "unknown", "unknown")) ∨
    (∃ root, fromstring svg_data = .ok root ∧
      parse_svg_dimensions fromstring svg_data =
        (root.get "width" "unknown", root.get "height" "unknown",
          root.get "viewBox" "unknown")) := by
  unfold parse_svg_dimensions
  cases h : fromstring svg_data with
  | error e => exact Or.inl ⟨e, rfl, rfl⟩
  | ok root => exact Or.inr ⟨root, rfl, rfl⟩

/-- C6.  Re-encoding is pixel-preserving: for a codec whose decode is a
left inverse of its encode (PNG is lossless, and `optimize=True` affects
only the encoding), the single file the call writes decodes to exactly
the image the rasterizer produced — same dimensions and per-pixel
values. -/
theorem reencode_pixel_preserving (env : Env) (svg_data : Bytes)
    (i : PredictInputs) (png_data : Bytes)
    (hok : env.svg2png svg_data (buildConvertParams i) = .ok png_data)
    (hrt : ∀ im, env.decode (env.encode im) = im) :
    (predict env svg_data i).filesWritten.map (fun f => env.decode f.2) =
      [env.decode png_data] := by
  simp only [predict, hok, List.map]
  rw [hrt]

/-- Flatten RGBA 4-tuples to a byte list (serialization used by the
concrete lossless codec below). -/
def flat4 : List (Nat × Nat × Nat × Nat) → List Nat
  | [] => []
  | p :: rest => p.1 :: p.2.1 :: p.2.2.1 :: p.2.2.2 :: flat4 rest

/-- Group a byte list back into RGBA 4-tuples (inverse of `flat4`). -/
def chunk4 : List Nat → List (Nat × Nat × Nat × Nat)
  | a :: b :: c :: d :: rest => (a, b, c, d) :: chunk4 rest
  | _ => []

/-- A concrete lossless encoder, used to exhibit a codec satisfying the
round-trip hypothesis of the re-encoding theorem. -/
def pngEncode (im : Img) : Bytes := im.width :: im.height :: flat4 im.pixels

/-- The decoder matching `pngEncode`. -/
def pngDecode : Bytes → Img
  | w :: h :: rest => ⟨w, h, chunk4 rest⟩
  | _ => ⟨0, 0, []⟩

theorem chunk4_flat4 (l : List (Nat × Nat × Nat × Nat)) : chunk4 (flat4 l) = l := by
  induction l with
  | nil => rfl
  | cons p rest ih => simp [flat4, chunk4, ih]

theorem pngDecode_pngEncode (im : Img) : pngDecode (pngEncode im) = im := by
  cases im
  simp [pngEncode, pngDecode, chunk4_flat4]

/-- C6 witness: with the concrete lossless codec, a call whose
rasterizer returns the encoding of a 2×1 image writes a file that
decodes back to exactly that rasterizer output. -/
theorem reencode_pixel_preserving_witness :
    (predict ⟨fun _ _ => .ok (pngEncode ⟨2, 1, [(1, 2, 3, 4), (5, 6, 7, 8)]⟩),
          pngDecode, pngEncode, "/tmp/w.png"⟩
        [0] ⟨none, none, none, 96, "transparent"⟩).filesWritten.map
        (fun f => pngDecode f.2) =
      [pngDecode (pngEncode ⟨2, 1, [(1, 2, 3, 4), (5, 6, 7, 8)]⟩)] :=
  reencode_pixel_preserving
    ⟨fun _ _ => .ok (pngEncode ⟨2, 1, [(1, 2, 3, 4), (5, 6, 7, 8)]⟩),
      pngDecode, pngEncode, "/tmp/w.png"⟩
    [0] ⟨none, none, none, 96, "transparent"⟩
    (pngEncode ⟨2, 1, [(1, 2, 3, 4), (5, 6, 7, 8)]⟩) rfl pngDecode_pngEncode

/-- C7.  Size-change reporting is one-sided: a size-change percentage is
reported iff the output file is strictly smaller than the input; when
reported it equals `(1 - outputSize/inputSize) * 100`; and in all cases
the written PNG bytes are exactly the re-encoded rasterizer output,
unaffected by the reporting. -/
theorem size_change_report (env : Env) (svg_data : Bytes)
    (i : PredictInputs) (png_data : Bytes)
    (hok : env.svg2png svg_data (buildConvertParams i) = .ok png_data) :
    ((predict env svg_data i).sizeChangeReport.isSome ↔
      (env.encode (env.decode png_data)).length < svg_data.length) ∧
    (∀ q, (predict env svg_data i).sizeChangeReport = some q →
      q = (1 - ((env.encode (env.decode png_data)).length : ℚ) /
        (svg_data.length : ℚ)) * 100) ∧
    (predict env svg_data i).filesWritten =
      [(env.tmpPath, env.encode (env.decode png_data))] := by
  have key : ∀ a b : Nat, a < b → (0 : ℚ) < (1 - (a : ℚ) / (b : ℚ)) * 100 := by
    intro a b hab
    have hb : (0 : ℚ) < (b : ℚ) := by
      exact_mod_cast Nat.lt_of_le_of_lt (Nat.zero_le a) hab
    have hlt1 : (a : ℚ) / (b : ℚ) < 1 := (div_lt_one hb).mpr (by exact_mod_cast hab)
    nlinarith
  have hreport : (predict env svg_data i).sizeChangeReport =
      (if (env.encode (env.decode png_data)).length < svg_data.length then
        some ((1 - ((env.encode (env.decode png_data)).length : ℚ) /
          (svg_data.length : ℚ)) * 100)
      else none) := by
    simp only [predict, hok]
    by_cases hlt : (env.encode (env.decode png_data)).length < svg_data.length
    · simp only [if_pos hlt, if_pos (key _ _ hlt)]
    · simp only [if_neg hlt, gt_iff_lt, lt_irrefl, if_neg, if_false]
  refine ⟨?_, fun q hq => ?_, ?_⟩
  · rw [hreport]
    by_cases hlt : (env.encode (env.decode png_data)).length < svg_data.length
    · simp [hlt]
    · simp [hlt]
  · rw [hreport] at hq
    by_cases hlt : (env.encode (env.decode png_data)).length < svg_data.length
    · rw [if_pos hlt] at hq
      exact (Option.some.inj hq).symm
    · rw [if_neg hlt] at hq
      exact absurd hq (by simp)
  · simp only [predict, hok]

/-- C7 witness: with a 5-byte input and a 2-byte re-encoded output, the
size-change line is reported (2 < 5) and the written file is the
re-encoded output. -/
theorem size_change_report_witness :
    (((predict ⟨fun _ _ => .ok [9], fun _ => ⟨1, 1, []⟩, fun _ => [4, 2], "/tmp/s.png"⟩
        [0, 0, 0, 0, 0] ⟨none, none, none, 96, "transparent"⟩).sizeChangeReport.isSome ↔
      2 < 5) ∧
    (predict ⟨fun _ _ => .ok [9], fun _ => ⟨1, 1, []⟩, fun _ => [4, 2], "/tmp/s.png"⟩
        [0, 0, 0, 0, 0] ⟨none, none, none, 96, "transparent"⟩).filesWritten =
      [("/tmp/s.png", [4, 2])]) :=
  ⟨(size_change_report _ _ _ _ rfl).1, (size_change_report _ _ _ _ rfl).2.2⟩

/-- C8.  Range validation precedes the core: a parameter set failing the
declared bounds is rejected by the harness without running the body, and
whenever the body runs, every supplied value is in range — width/height
in [1,10000], scale in [0.1,10.0], dpi in [72,600]. -/
theorem validation_precedes_core (env : Env) (svg_data : Bytes)
    (i : PredictInputs) :
    (validateInputs i = false → harnessRun env svg_data i = none) ∧
    ((harnessRun env svg_data i).isSome →
      (∀ w, i.width = some w → 1 ≤ w ∧ w ≤ 10000) ∧
      (∀ h, i.height = some h → 1 ≤ h ∧ h ≤ 10000) ∧
      (∀ s, i.scale = some s → 1 / 10 ≤ s ∧ s ≤ 10) ∧
      (72 ≤ i.dpi ∧ i.dpi ≤ 600)) := by
  constructor
  · intro h
    simp [harnessRun, h]
  · intro hs
    have hv : validateInputs i = true := by
      by_cases hb : validateInputs i = true
      · exact hb
      · rw [Bool.not_eq_true] at hb
        simp [harnessRun, hb] at hs
    unfold validateInputs at hv
    simp only [Bool.and_eq_true, decide_eq_true_eq] at hv
    obtain ⟨⟨⟨hw, hh⟩, hsc⟩, hd⟩ := hv
    refine ⟨fun w hww => ?_, fun h hhh => ?_, fun s hss => ?_, hd⟩
    · rw [hww] at hw
      simpa using hw
    · rw [hhh] at hh
      simpa using hh
    · rw [hss] at hsc
      simpa using hsc

/-- C8 witness: `width = 0` is rejected before the body runs, and a call
that does run (default inputs) has its dpi in range. -/
theorem validation_precedes_core_witness :
    harnessRun ⟨fun _ _ => .ok [], fun _ => ⟨0, 0, []⟩, fun _ => [], "/tmp/v.png"⟩
        [0] ⟨some 0, none, none, 96, "transparent"⟩ = none ∧
    (72 ≤ defaultInputs.dpi ∧ defaultInputs.dpi ≤ 600) :=
  ⟨(validation_precedes_core _ _ _).1 (by decide),
    ((validation_precedes_core
        ⟨fun _ _ => .ok [], fun _ => ⟨0, 0, []⟩, fun _ => [], "/tmp/v.png"⟩
        [0] defaultInputs).2 (by decide)).2.2.2⟩

/-- C10 counterexample: at size 0 the code yields "0.00 B", while the
claim's unit — the largest index with `0 / 1024 ^ idx < 1024`, which is
GB — would yield "0.00 GB". -/
theorem format_file_size_largest_counterexample :
    format_file_size 0 = "0.00 B" ∧ claimLargestUnitFormat 0 = "0.00 GB" ∧
    format_file_size 0 ≠ claimLargestUnitFormat 0 := by
  have h1 : format_file_size 0 = "0.00 B" := by
    norm_num [format_file_size, fmt2, roundHalfEven]
    rfl
  have h2 : claimLargestUnitFormat 0 = "0.00 GB" := by
    norm_num [claimLargestUnitFormat, fmt2, roundHalfEven]
    rfl
  refine ⟨h1, h2, ?_⟩
  rw [h1, h2]
  decide

/-- C10 amended.  `_format_file_size` renders the value
`count / 1024 ^ idx` to two decimals where `idx` is the SMALLEST index
among B, KB, MB, GB with `count / 1024 ^ idx < 1024`, falling back to TB
with value `count / 1024 ^ 4` when no such index exists (counts of at
least `1024 ^ 4`). -/
theorem format_file_size_smallest_unit (size_bytes : Nat) :
    format_file_size size_bytes = claimSmallestUnitFormat size_bytes := by
  unfold format_file_size claimSmallestUnitFormat
  norm_num [div_div]

end SvgToPng
